import Mathlib

/-
  Verification of the product-recommendations widget
  (assets/product-recommendations.js, first variant of the file, the one the
  specification follows) against its natural-language specification.

  The JavaScript is embedded shallowly:
  * the dataset attributes of the custom element become `Option String`
    fields of `Widget` (JavaScript `undefined` is `none`);
  * the browser environment (design mode, Shopify routes root, the network,
    JSON parsing and DOM fragment extraction) becomes an `Env` record of
    deterministic oracles;
  * every network call and every externally visible side effect is recorded
    in an event trace carried by the state `St`;
  * the exception that `querySelector` can raise during markup extraction is
    modelled by `ExtractRes.throws`, and the `try`/`catch` of
    `loadRecommendations` by an `Except St` value whose `error` carries the
    state at the throw point.
-/

namespace ProductRecs

/-- Truthiness of an optional string attribute, as in JavaScript:
an absent value and the empty string are falsy. -/
def truthy : Option String → Bool
  | none => false
  | some s => s ≠ ""

/-- The JavaScript expression `o || d` for an optional string `o`:
the default is taken when `o` is undefined or empty. -/
def jsOrD (o : Option String) (d : String) : String :=
  match o with
  | none => d
  | some s => if s = "" then d else s

/-- Template interpolation of a possibly undefined string, as in JavaScript:
interpolating `undefined` yields the literal text `undefined`. -/
def jsStr (o : Option String) : String := o.getD "undefined"

/-- The trim of `String.prototype.trim`: whitespace stripped from both
ends. -/
def jsTrim (s : String) : String :=
  String.mk (((s.toList.dropWhile Char.isWhitespace).reverse.dropWhile
    Char.isWhitespace).reverse)

/-- A product record as used by the acquisition logic. The source only ever
inspects the identity of a product (`String(p.id)` in the collection
filter); every other field feeds the external renderer, which the
specification treats as a collaborator, so the embedding keeps the identity
only, already stringified. -/
structure Product where
  id : String
deriving DecidableEq, Repr

/-- The result of `html.querySelector(selector)` on a fetched markup body,
for the selector addressing this container id. The element found is
abstracted by its inner markup and the presence of the
`[data-has-recommendations="true"]` descendant marker. `throws` models the
exception `querySelector` raises on a malformed selector. -/
structure Fragment where
  innerHTML : String
  hasMarker : Bool
deriving DecidableEq, Repr

/-- Outcome of extracting the sub-fragment addressed to a container id from
a fetched markup body. -/
inductive ExtractRes where
  | throws
  | notFound
  | found (frag : Fragment)
deriving DecidableEq, Repr

/-- Outcome of one `fetch(url)` as the code observes it: a 2xx response
carrying a body, a non-2xx response (`response.ok` false), or a rejection
(network error or abort, landing in `catch`). -/
inductive FetchOutcome where
  | ok (body : String)
  | httpErr
  | netErr
deriving DecidableEq, Repr

/-- The browser environment, fixed for the duration of one run: the design
mode flag (`window.Shopify.designMode` truthiness), the routes root
(`window.Shopify.routes.root`), the network, the JSON parser
(`none` models `response.json()` throwing, which every caller catches), and
the DOM fragment extraction for a (body, container id) pair. -/
structure Env where
  designMode : Bool
  routesRoot : Option String
  fetchRes : String → FetchOutcome
  parseJson : String → Option (List Product)
  extract : String → String → ExtractRes

/-- The observable state of the widget element: its id, the dataset
attributes the logic reads, the `hidden` class, whether a
`.resource-list` or `[data-testid="resource-list-grid"]` descendant exists,
the element inner markup (replaced when a server fragment is adopted), and
the state of the list container as left by the renderer. -/
structure Widget where
  id : String
  productId : Option String
  recommendationsPerformed : Option String
  sectionId : Option String
  intent : Option String
  layoutType : Option String
  urlAttr : Option String
  collectionHandle : Option String
  errorAttr : Option String
  hiddenClass : Bool
  hasListContainer : Bool
  innerHTMLv : String
  listHasRecs : Bool
  listRendered : Option (List Product × String)
deriving DecidableEq, Repr

/-- Externally visible events of one run, in chronological order: the three
kinds of network call (markup endpoint, JSON recommendations endpoint,
collection endpoint), an invocation of the renderer, and an invocation of
the error handler. -/
inductive Ev where
  | fetchHtml (url : String)
  | fetchJson (url : String)
  | fetchColl (url : String)
  | render (products : List Product) (layout : String)
  | errorHandled
deriving DecidableEq, Repr

/-- Whether an event is a network call. -/
def Ev.isNet : Ev → Bool
  | Ev.fetchHtml _ => true
  | Ev.fetchJson _ => true
  | Ev.fetchColl _ => true
  | _ => false

/-- The network calls of a trace. -/
def netEvents (t : List Ev) : List Ev := t.filter Ev.isNet

/-- Full state threaded through a run: the widget, the response cache of the
instance (`#cachedRecommendations`), and the event trace. -/
structure St where
  w : Widget
  cache : List (String × String)
  trace : List Ev
deriving DecidableEq, Repr

/-- Association lookup in the response cache, modelling
`this.#cachedRecommendations[url]`. -/
def lookupCache (c : List (String × String)) (u : String) : Option String :=
  match c with
  | [] => none
  | kv :: rest => if kv.1 = u then some kv.2 else lookupCache rest u

/-- Removal of every binding of a key, the helper of `insertCache`. -/
def removeKey : List (String × String) → String → List (String × String)
  | [], _ => []
  | kv :: rest, u => if kv.1 = u then removeKey rest u else kv :: removeKey rest u

/-- Cache update, modelling `this.#cachedRecommendations[url] = text`
(property assignment overwrites any previous binding). -/
def insertCache (c : List (String × String)) (u v : String) :
    List (String × String) :=
  (u, v) :: removeKey c u

/-- Longest digit run at the front of a character list. -/
def leadingDigits : List Char → List Char
  | [] => []
  | c :: cs => if c.isDigit then c :: leadingDigits cs else []

/-- A match of the regular expression `limit=(\d+)` anchored at the current
position: the text must start with `limit=` followed by at least one digit;
the capture is the maximal digit run. -/
def limitHere (s : List Char) : Option String :=
  if String.mk (s.take 6) = "limit=" then
    match s.drop 6 with
    | [] => none
    | d :: rest => if d.isDigit then some (String.mk (d :: leadingDigits rest)) else none
  else none

/-- Leftmost match of `limit=(\d+)`, scanning as the JavaScript regular
expression engine does. -/
def limitScan : List Char → Option String
  | [] => none
  | c :: cs =>
    match limitHere (c :: cs) with
    | some s => some s
    | none => limitScan cs

/-- The configured result limit:
`this.dataset.url?.match(/limit=(\d+)/)?.[1] || 4`. -/
def limitOf (u : Option String) : String :=
  match u with
  | none => "4"
  | some s => (limitScan s.toList).getD "4"

/-- SourceURL of the JSON recommendations endpoint, exactly as interpolated
by `#fetchJsonRecommendations`. -/
def jsonUrl (env : Env) (w : Widget) (productId : String) (intent : Option String) :
    String :=
  jsOrD env.routesRoot "/" ++ "recommendations/products.json?product_id=" ++ productId
    ++ "&limit=" ++ limitOf w.urlAttr ++ "&intent=" ++ jsOrD intent "related"

/-- SourceURL of the collection products endpoint, exactly as interpolated
by `#fetchFromCollection`. -/
def collectionUrl (env : Env) (w : Widget) : String :=
  jsOrD env.routesRoot "/" ++ "collections/" ++ jsOrD w.collectionHandle "all"
    ++ "/products.json?limit=" ++ limitOf w.urlAttr

/-- The one or two candidate SourceURLs built by
`#fetchCachedRecommendations`: one keyed on the declared section id (with
the well-known fallback when it is falsy), and a second keyed on the
canonical section id when the declared one is truthy and differs from it. -/
def urlsToTry (w : Widget) (productId : String) (sectionId intent : Option String) :
    List String :=
  let u1 := jsStr w.urlAttr ++ "&product_id=" ++ productId ++ "&section_id="
    ++ jsOrD sectionId "product-recommendations" ++ "&intent=" ++ jsStr intent
  let u2 :=
    match sectionId with
    | none => []
    | some s =>
      if s ≠ "" ∧ s ≠ "product-recommendations" then
        [jsStr w.urlAttr ++ "&product_id=" ++ productId
          ++ "&section_id=product-recommendations&intent=" ++ jsStr intent]
      else []
  u1 :: u2

/-- The `for (const url of urlsToTry)` loop of `#fetchCachedRecommendations`:
consult the cache (a falsy cached value — absent or empty string — does not
count as a hit), otherwise fetch; a 2xx response populates the cache and
returns its body; a non-2xx response or a rejection falls through to the
next candidate URL. -/
def fetchLoop (env : Env) : List String → St → Option String × St
  | [], st => (none, st)
  | url :: rest, st =>
    let cached := (lookupCache st.cache url).getD ""
    if cached ≠ "" then (some cached, st)
    else
      let st1 : St := { st with trace := st.trace ++ [Ev.fetchHtml url] }
      match env.fetchRes url with
      | FetchOutcome.ok body =>
        (some body, { st1 with cache := insertCache st1.cache url body })
      | FetchOutcome.httpErr => fetchLoop env rest st1
      | FetchOutcome.netErr => fetchLoop env rest st1

/-- Embedding of `#fetchCachedRecommendations(productId, sectionId, intent)`.
The abort-controller bookkeeping of the source is inert on this sequential
path (the handle is null again whenever the method returns); its interleaved
behaviour is modelled separately by `coordStep`. -/
def fetchCachedRecommendations (env : Env) (productId : String)
    (sectionId intent : Option String) (st : St) : Option String × St :=
  fetchLoop env (urlsToTry st.w productId sectionId intent) st

/-- Effect of adopting a server fragment:
`this.dataset.recommendationsPerformed = 'true'; this.innerHTML = recommendations.innerHTML`. -/
def adoptFragment (st : St) (frag : Fragment) : St :=
  { st with w := { st.w with recommendationsPerformed := some "true",
                             innerHTMLv := frag.innerHTML } }

/-- Embedding of `#tryHtmlApiFirst(productId, sectionId, intent, id)`:
fetch via the caching loop, extract the sub-fragment for this container id
(`Except.error` carries the state when extraction throws), require a
non-empty inner markup and — this is the carousel-only strategy — the
`[data-has-recommendations="true"]` marker, then adopt the fragment. -/
def tryHtmlApiFirst (env : Env) (productId : String) (sectionId intent : Option String)
    (id : String) (st : St) : Except St (Bool × St) :=
  let r := fetchCachedRecommendations env productId sectionId intent st
  match r.1 with
  | none => Except.ok (false, r.2)
  | some data =>
    match env.extract data id with
    | ExtractRes.throws => Except.error r.2
    | ExtractRes.notFound => Except.ok (false, r.2)
    | ExtractRes.found frag =>
      if jsTrim frag.innerHTML = "" then Except.ok (false, r.2)
      else if frag.hasMarker then Except.ok (true, adoptFragment r.2 frag)
      else Except.ok (false, r.2)

/-- Effect of `#renderProductCards(listContainer, products, layoutType)`:
the renderer fills the list container and always ends by marking it with
`data-has-recommendations="true"`. A JavaScript default parameter resolves
an undefined layout to `grid`. -/
def renderProductCards (st : St) (products : List Product)
    (layoutType : Option String) : St :=
  let layout := match layoutType with | none => "grid" | some s => s
  { st with
    w := { st.w with listHasRecs := true, listRendered := some (products, layout) },
    trace := st.trace ++ [Ev.render products layout] }

/-- Embedding of `#fetchJsonRecommendations(productId, intent)`: one request
to the JSON recommendations endpoint; succeeds only when the response is
2xx, parses, carries at least one product, and a list container exists. -/
def fetchJsonRecommendations (env : Env) (productId : String)
    (intent : Option String) (st : St) : Bool × St :=
  let url := jsonUrl env st.w productId intent
  let st1 : St := { st with trace := st.trace ++ [Ev.fetchJson url] }
  match env.fetchRes url with
  | FetchOutcome.httpErr => (false, st1)
  | FetchOutcome.netErr => (false, st1)
  | FetchOutcome.ok body =>
    match env.parseJson body with
    | none => (false, st1)
    | some products =>
      if products.isEmpty then (false, st1)
      else if st1.w.hasListContainer then
        (true, renderProductCards st1 products st1.w.layoutType)
      else (false, st1)

/-- Embedding of `#fetchFromCollection(productId, listContainer)`: one
request to the collection endpoint; succeeds only when at least one product
other than the current one remains; the rendered list is truncated to the
configured limit. -/
def fetchFromCollection (env : Env) (productId : String) (st : St) : Bool × St :=
  let url := collectionUrl env st.w
  let st1 : St := { st with trace := st.trace ++ [Ev.fetchColl url] }
  match env.fetchRes url with
  | FetchOutcome.httpErr => (false, st1)
  | FetchOutcome.netErr => (false, st1)
  | FetchOutcome.ok body =>
    match env.parseJson body with
    | none => (false, st1)
    | some products =>
      if products.isEmpty then (false, st1)
      else
        let filtered := products.filter (fun p => p.id ≠ productId)
        if filtered.isEmpty then (false, st1)
        else
          (true, renderProductCards st1
            (filtered.take ((limitOf st.w.urlAttr).toNat?.getD 0)) st1.w.layoutType)

/-- Effect of `#handleError`: hide the widget and set the diagnostic
attribute; the invocation is recorded in the trace. -/
def handleError (st : St) : St :=
  { st with
    w := { st.w with hiddenClass := true,
                     errorAttr := some "Error loading product recommendations" },
    trace := st.trace ++ [Ev.errorHandled] }

/-- Effect of `this.dataset.recommendationsPerformed = 'true'`. -/
def setPerformed (st : St) : St :=
  { st with w := { st.w with recommendationsPerformed := some "true" } }

/-- The final markup fallback of `#loadRecommendations` (the body of the
`if (!success)` block around the last `#fetchCachedRecommendations` call):
re-fetch through the cache and adopt the extracted fragment when its inner
markup is non-empty — with no has-products marker check. `Except.error`
carries the state at the point where extraction threw. -/
def htmlFallback (env : Env) (productId : String) (sectionId intent : Option String)
    (id : String) (st3 : St) : Except St (Bool × St) :=
  let r := fetchCachedRecommendations env productId sectionId intent st3
  match r.1 with
  | none => Except.ok (false, r.2)
  | some data =>
    match env.extract data id with
    | ExtractRes.throws => Except.error r.2
    | ExtractRes.notFound => Except.ok (false, r.2)
    | ExtractRes.found frag =>
      if jsTrim frag.innerHTML = "" then Except.ok (false, r.2)
      else Except.ok (true, adoptFragment r.2 frag)

/-- The tail of the strategy chain after the JSON strategy has run (or been
skipped by an earlier success): the collection strategy when still
unsuccessful, then the markup fallback. -/
def afterJson (env : Env) (productId : String) (sectionId intent : Option String)
    (id : String) (s2 : Bool × St) : Except St (Bool × St) :=
  let s3 := if s2.1 then s2 else fetchFromCollection env productId s2.2
  if s3.1 then Except.ok (true, s3.2)
  else htmlFallback env productId sectionId intent id s3.2

/-- The tail of the strategy chain after the carousel-only markup strategy
has run (or been skipped in grid layout): the JSON strategy when still
unsuccessful, then the rest of the chain. -/
def afterStep1 (env : Env) (productId : String) (sectionId intent : Option String)
    (id : String) (s1 : Bool × St) : Except St (Bool × St) :=
  afterJson env productId sectionId intent id
    (if s1.1 then s1 else fetchJsonRecommendations env productId intent s1.2)

/-- The `try` body of `#loadRecommendations`: for carousel layout the markup
strategy first, then the JSON strategy, then the collection strategy, and
finally the markup fallback. `Except.error` carries the state at the point
where extraction threw. -/
def loadAttempt (env : Env) (productId : String)
    (sectionId intent layoutType : Option String) (id : String) (st : St) :
    Except St (Bool × St) :=
  if layoutType = some "carousel" then
    match tryHtmlApiFirst env productId sectionId intent id st with
    | Except.error e => Except.error e
    | Except.ok s1 => afterStep1 env productId sectionId intent id s1
  else afterStep1 env productId sectionId intent id (false, st)

/-- Embedding of `#loadRecommendations`. Guards in source order: a falsy
product id or element id reports a configuration error (suppressed in
design mode); a completion flag equal to `true` returns silently; a missing
list container returns silently. Then the strategy chain runs inside
`try`; a success sets the completion flag, a failure invokes the error
handler unless design mode is active; a thrown error triggers one
last-resort JSON attempt, and — on this catch path only — the error handler
runs regardless of design mode and the completion flag is never set. The
returned boolean mirrors the local `success` (or `jsonSuccess`) variable of
the source and reports whether the run acquired recommendations. -/
def loadRecommendations (env : Env) (st : St) : Bool × St :=
  let w := st.w
  if ¬ truthy w.productId ∨ w.id = "" then
    if env.designMode then (false, st) else (false, handleError st)
  else if w.recommendationsPerformed = some "true" then (false, st)
  else if ¬ w.hasListContainer then (false, st)
  else
    let productId := w.productId.getD ""
    match loadAttempt env productId w.sectionId w.intent w.layoutType w.id st with
    | Except.ok s =>
      if s.1 then (true, setPerformed s.2)
      else if env.designMode then (false, s.2)
      else (false, handleError s.2)
    | Except.error stE =>
      let jr := fetchJsonRecommendations env productId w.intent stE
      if jr.1 then (true, jr.2) else (false, handleError jr.2)

/-- One record delivered to the `MutationObserver` callback: whether the
target is the widget element itself, the mutation type, and the attribute
name. -/
structure MutationRecord where
  targetIsSelf : Bool
  mtype : String
  attributeName : Option String
deriving DecidableEq, Repr

/-- The skip conditions of the observer callback, in source order: foreign
target or non-attribute mutation; the `data-error` attribute; a `class`
mutation while the element carries the `hidden` class; the completion
attribute while its value is `true`. -/
def ignoresMutation (w : Widget) (m : MutationRecord) : Bool :=
  (! m.targetIsSelf) || (m.mtype ≠ "attributes")
  || (m.attributeName = some "data-error")
  || ((m.attributeName = some "class") && w.hiddenClass)
  || ((m.attributeName = some "data-recommendations-performed")
        && (w.recommendationsPerformed = some "true"))

/-- Whether the observer callback reaches `this.#loadRecommendations()`:
the loop skips ignored records and fires (once, then breaks) at the first
record that is not ignored. -/
def observerFires (w : Widget) (ms : List MutationRecord) : Bool :=
  ms.any (fun m => ! ignoresMutation w m)

/-- The observer callback as a state transformer: invoke the orchestrator
when some record qualifies, otherwise leave the state untouched. -/
def mutationCallback (env : Env) (st : St) (ms : List MutationRecord) : St :=
  if observerFires st.w ms then (loadRecommendations env st).2 else st

/-
  Interleaving model of the fetch coordinator.

  The per-iteration body of the loop in `#fetchCachedRecommendations` is

      this.#activeFetch?.abort();
      this.#activeFetch = new AbortController();
      try {
        const response = await fetch(url, { signal: this.#activeFetch.signal });
        if (response.ok) { const text = await response.text();
                           this.#cachedRecommendations[url] = text;
                           return { success: true, data: text }; }
      } catch { } finally { this.#activeFetch = null; }

  Several invocations of the surrounding orchestrator can overlap on the
  event loop: one invocation suspends at the `await`, another runs the
  synchronous prefix, and the resolution of each pending `await` is a later
  event-loop turn. `coordStep` is the labelled transition system of this
  code over such turns, for invocations that try a single candidate URL:
  `startFetch` is the synchronous prefix up to and including issuing
  `fetch(url)` (it aborts whatever controller the shared handle holds and
  installs its own); `deliverOk`/`deliverErr` is the later turn in which the
  pending `await` of a given fetch resolves and the iteration finishes
  (an aborted fetch always rejects, so its body is discarded; the `finally`
  clause then clears the shared handle unconditionally).
-/

/-- Shared coordinator state together with the bookkeeping of the network
turns: the `#activeFetch` handle (identified by the number of the call that
installed the controller), the fetches started so far with their URLs, the
fetches whose controllers were aborted, the fetches whose call finished
(its `finally` ran), and the response cache. -/
structure CoordState where
  handle : Option Nat
  startedL : List (Nat × String)
  abortedL : List Nat
  finishedL : List Nat
  ccache : List (String × String)
deriving DecidableEq, Repr

/-- Coordinator state before any call: no handle, nothing started. -/
def CoordState.init : CoordState := ⟨none, [], [], [], []⟩

/-- Event-loop turns touching the coordinator: call `i` runs its synchronous
prefix and issues `fetch(url)`, or the pending fetch of call `i` resolves
with a 2xx body, or it rejects (network failure or abort). -/
inductive CoordEv where
  | startFetch (i : Nat) (url : String)
  | deliverOk (i : Nat) (body : String)
  | deliverErr (i : Nat)
deriving DecidableEq, Repr

/-- Call numbers that have issued their fetch. -/
def idsStarted (s : CoordState) : List Nat := s.startedL.map Prod.fst

/-- One turn of the coordinator. A `startFetch` with a reused call number
and a delivery for a fetch that never started or already finished are
ill-formed turns and leave the state unchanged. -/
def coordStep (s : CoordState) (e : CoordEv) : CoordState :=
  match e with
  | CoordEv.startFetch i url =>
    if i ∈ idsStarted s then s
    else
      let ab := match s.handle with | some j => j :: s.abortedL | none => s.abortedL
      { s with handle := some i, abortedL := ab, startedL := (i, url) :: s.startedL }
  | CoordEv.deliverOk i body =>
    if i ∈ idsStarted s ∧ i ∉ s.finishedL then
      if i ∈ s.abortedL then
        { s with handle := none, finishedL := i :: s.finishedL }
      else
        let c2 :=
          match s.startedL.lookup i with
          | some url => insertCache s.ccache url body
          | none => s.ccache
        { s with handle := none, finishedL := i :: s.finishedL, ccache := c2 }
    else s
  | CoordEv.deliverErr i =>
    if i ∈ idsStarted s ∧ i ∉ s.finishedL then
      { s with handle := none, finishedL := i :: s.finishedL }
    else s

/-- Run of the coordinator over a list of turns from the initial state. -/
def coordRun (es : List CoordEv) : CoordState :=
  es.foldl coordStep CoordState.init

/-- Network requests in flight: started, not aborted, not yet resolved. -/
def inFlight (s : CoordState) : List Nat :=
  (idsStarted s).filter (fun i => i ∉ s.abortedL ∧ i ∉ s.finishedL)

/-
  Concrete instances used below to evaluate the embedding on explicit
  inputs. The widget carries product id `p1`, element id `w1`, the
  configured markup endpoint `/recs?limit=4`, and no section id, intent,
  or collection handle, so the derived SourceURLs are the three below.
-/

/-- Derived markup SourceURL of the concrete widget. -/
def urlH : String :=
  "/recs?limit=4&product_id=p1&section_id=product-recommendations&intent=undefined"

/-- Derived JSON recommendations SourceURL of the concrete widget. -/
def urlJ : String :=
  "/recommendations/products.json?product_id=p1&limit=4&intent=related"

/-- Derived collection SourceURL of the concrete widget. -/
def urlC : String := "/collections/all/products.json?limit=4"

/-- A well-configured carousel widget before any run. -/
def wCar : Widget :=
  { id := "w1", productId := some "p1", recommendationsPerformed := none,
    sectionId := none, intent := none, layoutType := some "carousel",
    urlAttr := some "/recs?limit=4", collectionHandle := none, errorAttr := none,
    hiddenClass := false, hasListContainer := true, innerHTMLv := "",
    listHasRecs := false, listRendered := none }

/-- The same widget in grid layout. -/
def wGrid : Widget := { wCar with layoutType := none }

/-- The same widget with the completion flag already set. -/
def wDone : Widget := { wCar with recommendationsPerformed := some "true" }

/-- Fresh run state for a widget: empty cache, empty trace. -/
def stOf (w : Widget) : St := { w := w, cache := [], trace := [] }

/-- An environment in which every request fails with a non-2xx status. -/
def envInert : Env :=
  { designMode := false, routesRoot := none,
    fetchRes := fun _ => FetchOutcome.httpErr,
    parseJson := fun _ => none,
    extract := fun _ _ => ExtractRes.notFound }

/-- An environment in which the markup endpoint answers with a body whose
extraction throws, and the JSON endpoint answers with one product: the
carousel run reaches the global catch and the last-resort JSON attempt
succeeds. -/
def envCatch : Env :=
  { designMode := false, routesRoot := none,
    fetchRes := fun u =>
      if u = urlH then FetchOutcome.ok "H"
      else if u = urlJ then FetchOutcome.ok "J"
      else FetchOutcome.httpErr,
    parseJson := fun b => if b = "J" then some [⟨"x"⟩] else none,
    extract := fun d _ => if d = "H" then ExtractRes.throws else ExtractRes.notFound }

/-- An environment in which the markup endpoint yields a non-empty fragment
for this container id that lacks the has-products marker, and every other
request fails. -/
def envMarkerless : Env :=
  { designMode := false, routesRoot := none,
    fetchRes := fun u => if u = urlH then FetchOutcome.ok "H" else FetchOutcome.httpErr,
    parseJson := fun _ => none,
    extract := fun d _ =>
      if d = "H" then ExtractRes.found ⟨"FRAG", false⟩ else ExtractRes.notFound }

/-- An environment in which every request succeeds with an empty body. -/
def envEmptyBody : Env :=
  { designMode := false, routesRoot := none,
    fetchRes := fun _ => FetchOutcome.ok "",
    parseJson := fun _ => none,
    extract := fun _ _ => ExtractRes.notFound }

/-- An environment with the design mode signal active, a markup body whose
extraction throws, and a failing JSON endpoint. -/
def envDesignThrow : Env :=
  { designMode := true, routesRoot := none,
    fetchRes := fun u => if u = urlH then FetchOutcome.ok "H" else FetchOutcome.httpErr,
    parseJson := fun _ => none,
    extract := fun d _ => if d = "H" then ExtractRes.throws else ExtractRes.notFound }

/-- An environment in which only the JSON endpoint succeeds, with one
product, and extraction never throws. -/
def envGridJson : Env :=
  { designMode := false, routesRoot := none,
    fetchRes := fun u => if u = urlJ then FetchOutcome.ok "J" else FetchOutcome.httpErr,
    parseJson := fun b => if b = "J" then some [⟨"x"⟩] else none,
    extract := fun _ _ => ExtractRes.notFound }

/-
  Helper lemmas: cache laws, preservation and trace-shape facts about the
  individual strategies, and a master lemma about the strategy chain.
-/

theorem lookupCache_removeKey_ne (c : List (String × String)) (u url : String)
    (h : u ≠ url) :
    lookupCache (removeKey c url) u = lookupCache c u := by
  induction c with
  | nil => rfl
  | cons kv rest ih =>
    by_cases hk : kv.1 = url
    · have hku : kv.1 ≠ u := fun e => h (e ▸ hk)
      simp only [removeKey, hk, if_true, lookupCache, ih]
      rw [if_neg (fun e => h e.symm)]
    · simp only [removeKey, hk, if_false, lookupCache, ih]

theorem lookupCache_insert_self (c : List (String × String)) (u v : String) :
    lookupCache (insertCache c u v) u = some v := by
  simp [insertCache, lookupCache]

theorem lookupCache_insert_ne (c : List (String × String)) (u url v : String)
    (h : u ≠ url) :
    lookupCache (insertCache c url v) u = lookupCache c u := by
  simp only [insertCache, lookupCache]
  rw [if_neg (fun e => h e.symm)]
  exact lookupCache_removeKey_ne c u url h

theorem fetchLoop_w (env : Env) (urls : List String) (st : St) :
    ((fetchLoop env urls st).2).w = st.w := by
  induction urls generalizing st with
  | nil => rfl
  | cons url rest ih =>
    simp only [fetchLoop]
    by_cases hc : (lookupCache st.cache url).getD "" ≠ ""
    · rw [if_pos hc]
    · rw [if_neg hc]
      cases hfr : env.fetchRes url with
      | ok body => rfl
      | httpErr => exact ih _
      | netErr => exact ih _

theorem fetchLoop_trace (env : Env) (urls : List String) (st : St) :
    ∃ t, ((fetchLoop env urls st).2).trace = st.trace ++ t ∧
      ∀ e ∈ t, ∃ u, e = Ev.fetchHtml u := by
  induction urls generalizing st with
  | nil => exact ⟨[], by simp [fetchLoop]⟩
  | cons url rest ih =>
    simp only [fetchLoop]
    by_cases hc : (lookupCache st.cache url).getD "" ≠ ""
    · rw [if_pos hc]
      exact ⟨[], by simp⟩
    · rw [if_neg hc]
      cases hfr : env.fetchRes url with
      | ok body => exact ⟨[Ev.fetchHtml url], by simp⟩
      | httpErr =>
        obtain ⟨t, ht, hall⟩ := ih { st with trace := st.trace ++ [Ev.fetchHtml url] }
        refine ⟨Ev.fetchHtml url :: t, by simpa using ht, ?_⟩
        intro e he
        rcases List.mem_cons.mp he with h1 | h1
        · exact ⟨url, h1⟩
        · exact hall e (by simpa using h1)
      | netErr =>
        obtain ⟨t, ht, hall⟩ := ih { st with trace := st.trace ++ [Ev.fetchHtml url] }
        refine ⟨Ev.fetchHtml url :: t, by simpa using ht, ?_⟩
        intro e he
        rcases List.mem_cons.mp he with h1 | h1
        · exact ⟨url, h1⟩
        · exact hall e (by simpa using h1)

theorem fetchCached_w (env : Env) (productId : String) (sectionId intent : Option String)
    (st : St) :
    ((fetchCachedRecommendations env productId sectionId intent st).2).w = st.w :=
  fetchLoop_w env _ st

theorem fetchCached_trace (env : Env) (productId : String)
    (sectionId intent : Option String) (st : St) :
    ∃ t, ((fetchCachedRecommendations env productId sectionId intent st).2).trace
        = st.trace ++ t ∧ ∀ e ∈ t, ∃ u, e = Ev.fetchHtml u :=
  fetchLoop_trace env _ st

theorem fetchJson_cases (env : Env) (productId : String) (intent : Option String)
    (st : St) :
    fetchJsonRecommendations env productId intent st =
      (false, { st with trace := st.trace ++ [Ev.fetchJson (jsonUrl env st.w productId intent)] })
    ∨ ∃ products, products ≠ [] ∧
        fetchJsonRecommendations env productId intent st =
          (true, renderProductCards
            { st with trace := st.trace ++ [Ev.fetchJson (jsonUrl env st.w productId intent)] }
            products st.w.layoutType) := by
  unfold fetchJsonRecommendations
  dsimp only
  cases hfr : env.fetchRes (jsonUrl env st.w productId intent) with
  | httpErr => left; rfl
  | netErr => left; rfl
  | ok body =>
    dsimp only
    cases hpj : env.parseJson body with
    | none => left; rfl
    | some products =>
      dsimp only
      by_cases hp : products.isEmpty = true
      · rw [if_pos hp]
        left; rfl
      · rw [if_neg hp]
        by_cases hlc : st.w.hasListContainer = true
        · rw [if_pos hlc]
          refine Or.inr ⟨products, by simpa [List.isEmpty_iff] using hp, ?_⟩
          rfl
        · rw [if_neg hlc]
          left; rfl

theorem fetchColl_cases (env : Env) (productId : String) (st : St) :
    fetchFromCollection env productId st =
      (false, { st with trace := st.trace ++ [Ev.fetchColl (collectionUrl env st.w)] })
    ∨ ∃ products, fetchFromCollection env productId st =
        (true, renderProductCards
          { st with trace := st.trace ++ [Ev.fetchColl (collectionUrl env st.w)] }
          products st.w.layoutType) := by
  unfold fetchFromCollection
  dsimp only
  cases hfr : env.fetchRes (collectionUrl env st.w) with
  | httpErr => left; rfl
  | netErr => left; rfl
  | ok body =>
    dsimp only
    cases hpj : env.parseJson body with
    | none => left; rfl
    | some products =>
      dsimp only
      by_cases hp : products.isEmpty = true
      · rw [if_pos hp]
        left; rfl
      · rw [if_neg hp]
        by_cases hf : (products.filter (fun p => p.id ≠ productId)).isEmpty = true
        · rw [if_pos hf]
          left; rfl
        · rw [if_neg hf]
          refine Or.inr
            ⟨(products.filter (fun p => p.id ≠ productId)).take
              ((limitOf st.w.urlAttr).toNat?.getD 0), ?_⟩
          rfl

theorem tryHtml_cases (env : Env) (productId : String) (sectionId intent : Option String)
    (id : String) (st : St) :
    (∃ data, (fetchCachedRecommendations env productId sectionId intent st).1 = some data ∧
       env.extract data id = ExtractRes.throws ∧
       tryHtmlApiFirst env productId sectionId intent id st =
         Except.error (fetchCachedRecommendations env productId sectionId intent st).2)
    ∨ tryHtmlApiFirst env productId sectionId intent id st =
        Except.ok (false, (fetchCachedRecommendations env productId sectionId intent st).2)
    ∨ ∃ data frag,
        (fetchCachedRecommendations env productId sectionId intent st).1 = some data ∧
        env.extract data id = ExtractRes.found frag ∧
        frag.hasMarker = true ∧ jsTrim frag.innerHTML ≠ "" ∧
        tryHtmlApiFirst env productId sectionId intent id st =
          Except.ok (true,
            adoptFragment (fetchCachedRecommendations env productId sectionId intent st).2 frag) := by
  unfold tryHtmlApiFirst
  dsimp only
  cases hr : (fetchCachedRecommendations env productId sectionId intent st).1 with
  | none => right; left; rfl
  | some data =>
    dsimp only
    cases hx : env.extract data id with
    | throws =>
      refine Or.inl ⟨data, rfl, hx, ?_⟩
      rfl
    | notFound => right; left; rfl
    | found frag =>
      dsimp only
      by_cases ht : jsTrim frag.innerHTML = ""
      · rw [if_pos ht]
        right; left; rfl
      · rw [if_neg ht]
        by_cases hm : frag.hasMarker = true
        · rw [if_pos hm]
          refine Or.inr (Or.inr ⟨data, frag, rfl, hx, hm, ht, ?_⟩)
          rfl
        · rw [if_neg hm]
          right; left; rfl

theorem htmlFallback_cases (env : Env) (productId : String)
    (sectionId intent : Option String) (id : String) (st3 : St) :
    (∃ data, (fetchCachedRecommendations env productId sectionId intent st3).1 = some data ∧
       env.extract data id = ExtractRes.throws ∧
       htmlFallback env productId sectionId intent id st3 =
         Except.error (fetchCachedRecommendations env productId sectionId intent st3).2)
    ∨ htmlFallback env productId sectionId intent id st3 =
        Except.ok (false, (fetchCachedRecommendations env productId sectionId intent st3).2)
    ∨ ∃ data frag,
        (fetchCachedRecommendations env productId sectionId intent st3).1 = some data ∧
        env.extract data id = ExtractRes.found frag ∧ jsTrim frag.innerHTML ≠ "" ∧
        htmlFallback env productId sectionId intent id st3 =
          Except.ok (true,
            adoptFragment (fetchCachedRecommendations env productId sectionId intent st3).2 frag) := by
  unfold htmlFallback
  dsimp only
  cases hr : (fetchCachedRecommendations env productId sectionId intent st3).1 with
  | none => right; left; rfl
  | some data =>
    dsimp only
    cases hx : env.extract data id with
    | throws =>
      refine Or.inl ⟨data, rfl, hx, ?_⟩
      rfl
    | notFound => right; left; rfl
    | found frag =>
      dsimp only
      by_cases ht : jsTrim frag.innerHTML = ""
      · rw [if_pos ht]
        right; left; rfl
      · rw [if_neg ht]
        refine Or.inr (Or.inr ⟨data, frag, rfl, hx, ht, ?_⟩)
        rfl

theorem fetchJson_pres (env : Env) (productId : String) (intent : Option String)
    (st : St) :
    ((fetchJsonRecommendations env productId intent st).2).w.productId = st.w.productId ∧
    ((fetchJsonRecommendations env productId intent st).2).w.id = st.w.id ∧
    ((fetchJsonRecommendations env productId intent st).2).w.recommendationsPerformed
      = st.w.recommendationsPerformed := by
  rcases fetchJson_cases env productId intent st with h | ⟨ps, hps, h⟩ <;>
    rw [h] <;> simp [renderProductCards]

theorem fetchColl_pres (env : Env) (productId : String) (st : St) :
    ((fetchFromCollection env productId st).2).w.productId = st.w.productId ∧
    ((fetchFromCollection env productId st).2).w.id = st.w.id ∧
    ((fetchFromCollection env productId st).2).w.recommendationsPerformed
      = st.w.recommendationsPerformed := by
  rcases fetchColl_cases env productId st with h | ⟨ps, h⟩ <;>
    rw [h] <;> simp [renderProductCards]

theorem tryHtml_pres (env : Env) (productId : String) (sectionId intent : Option String)
    (id : String) (st : St) :
    (∀ stE, tryHtmlApiFirst env productId sectionId intent id st = Except.error stE →
        stE.w = st.w) ∧
    (∀ s2, tryHtmlApiFirst env productId sectionId intent id st = Except.ok s2 →
        s2.2.w.productId = st.w.productId ∧ s2.2.w.id = st.w.id ∧
        (s2.1 = false → s2.2.w.recommendationsPerformed = st.w.recommendationsPerformed)) := by
  have hw := fetchCached_w env productId sectionId intent st
  rcases tryHtml_cases env productId sectionId intent id st with
    ⟨d, hd, hx, h⟩ | h | ⟨d, f, hd, hx, hm, ht, h⟩
  · refine ⟨?_, ?_⟩
    · intro stE he
      rw [h] at he
      injection he with h2
      rw [← h2]
      exact hw
    · intro s2 he
      rw [h] at he
      exact Except.noConfusion he
  · refine ⟨?_, ?_⟩
    · intro stE he
      rw [h] at he
      exact Except.noConfusion he
    · intro s2 he
      rw [h] at he
      injection he with h2
      rw [← h2]
      simp [hw]
  · refine ⟨?_, ?_⟩
    · intro stE he
      rw [h] at he
      exact Except.noConfusion he
    · intro s2 he
      rw [h] at he
      injection he with h2
      rw [← h2]
      simp [adoptFragment, hw]

theorem htmlFallback_pres (env : Env) (productId : String)
    (sectionId intent : Option String) (id : String) (st3 : St) :
    (∀ stE, htmlFallback env productId sectionId intent id st3 = Except.error stE →
        stE.w = st3.w) ∧
    (∀ s2, htmlFallback env productId sectionId intent id st3 = Except.ok s2 →
        s2.2.w.productId = st3.w.productId ∧ s2.2.w.id = st3.w.id ∧
        (s2.1 = false → s2.2.w.recommendationsPerformed = st3.w.recommendationsPerformed)) := by
  have hw := fetchCached_w env productId sectionId intent st3
  rcases htmlFallback_cases env productId sectionId intent id st3 with
    ⟨d, hd, hx, h⟩ | h | ⟨d, f, hd, hx, ht, h⟩
  · refine ⟨?_, ?_⟩
    · intro stE he
      rw [h] at he
      injection he with h2
      rw [← h2]
      exact hw
    · intro s2 he
      rw [h] at he
      exact Except.noConfusion he
  · refine ⟨?_, ?_⟩
    · intro stE he
      rw [h] at he
      exact Except.noConfusion he
    · intro s2 he
      rw [h] at he
      injection he with h2
      rw [← h2]
      simp [hw]
  · refine ⟨?_, ?_⟩
    · intro stE he
      rw [h] at he
      exact Except.noConfusion he
    · intro s2 he
      rw [h] at he
      injection he with h2
      rw [← h2]
      simp [adoptFragment, hw]

theorem afterJson_pres (env : Env) (productId : String) (sectionId intent : Option String)
    (id : String) (s2 : Bool × St) :
    (∀ stE, afterJson env productId sectionId intent id s2 = Except.error stE →
        stE.w.productId = s2.2.w.productId ∧ stE.w.id = s2.2.w.id ∧
        stE.w.recommendationsPerformed = s2.2.w.recommendationsPerformed) ∧
    (∀ s4, afterJson env productId sectionId intent id s2 = Except.ok s4 →
        s4.2.w.productId = s2.2.w.productId ∧ s4.2.w.id = s2.2.w.id ∧
        (s4.1 = false → s4.2.w.recommendationsPerformed = s2.2.w.recommendationsPerformed)) := by
  unfold afterJson
  by_cases hb : s2.1 = true
  · rw [if_pos hb]
    dsimp only
    rw [if_pos hb]
    refine ⟨?_, ?_⟩
    · intro stE he
      exact Except.noConfusion he
    · intro s4 he
      injection he with h2
      rw [← h2]
      simp
  · rw [if_neg hb]
    dsimp only
    have hcp := fetchColl_pres env productId s2.2
    rcases fetchColl_cases env productId s2.2 with hc | ⟨ps, hc⟩
    · rw [hc]
      dsimp only
      have hfb := htmlFallback_pres env productId sectionId intent id
        { s2.2 with trace := s2.2.trace ++ [Ev.fetchColl (collectionUrl env s2.2.w)] }
      refine ⟨?_, ?_⟩
      · intro stE he
        have h3 := hfb.1 stE he
        rw [h3]
        exact ⟨rfl, rfl, rfl⟩
      · intro s4 he
        have h3 := hfb.2 s4 he
        exact h3
    · rw [hc]
      dsimp only
      refine ⟨?_, ?_⟩
      · intro stE he
        exact Except.noConfusion he
      · intro s4 he
        injection he with h2
        rw [← h2]
        simp [renderProductCards]

theorem afterStep1_pres (env : Env) (productId : String) (sectionId intent : Option String)
    (id : String) (s1 : Bool × St) :
    (∀ stE, afterStep1 env productId sectionId intent id s1 = Except.error stE →
        stE.w.productId = s1.2.w.productId ∧ stE.w.id = s1.2.w.id ∧
        stE.w.recommendationsPerformed = s1.2.w.recommendationsPerformed) ∧
    (∀ s4, afterStep1 env productId sectionId intent id s1 = Except.ok s4 →
        s4.2.w.productId = s1.2.w.productId ∧ s4.2.w.id = s1.2.w.id ∧
        (s4.1 = false → s4.2.w.recommendationsPerformed = s1.2.w.recommendationsPerformed)) := by
  unfold afterStep1
  by_cases hb : s1.1 = true
  · rw [if_pos hb]
    exact afterJson_pres env productId sectionId intent id s1
  · rw [if_neg hb]
    have hjp := fetchJson_pres env productId intent s1.2
    have haj := afterJson_pres env productId sectionId intent id
      (fetchJsonRecommendations env productId intent s1.2)
    refine ⟨?_, ?_⟩
    · intro stE he
      have h3 := haj.1 stE he
      exact ⟨h3.1.trans hjp.1, h3.2.1.trans hjp.2.1, h3.2.2.trans hjp.2.2⟩
    · intro s4 he
      have h3 := haj.2 s4 he
      exact ⟨h3.1.trans hjp.1, h3.2.1.trans hjp.2.1,
        fun hf => (h3.2.2 hf).trans hjp.2.2⟩

theorem afterStep1_of_true (env : Env) (productId : String)
    (sectionId intent : Option String) (id : String) (s1 : Bool × St)
    (hb : s1.1 = true) :
    afterStep1 env productId sectionId intent id s1 = Except.ok (true, s1.2) := by
  unfold afterStep1 afterJson
  rw [if_pos hb]
  dsimp only
  rw [if_pos hb, if_pos hb]

theorem loadAttempt_pres (env : Env) (productId : String)
    (sectionId intent layoutType : Option String) (id : String) (st : St) :
    (∀ stE, loadAttempt env productId sectionId intent layoutType id st = Except.error stE →
        stE.w.productId = st.w.productId ∧ stE.w.id = st.w.id ∧
        stE.w.recommendationsPerformed = st.w.recommendationsPerformed) ∧
    (∀ s4, loadAttempt env productId sectionId intent layoutType id st = Except.ok s4 →
        s4.2.w.productId = st.w.productId ∧ s4.2.w.id = st.w.id ∧
        (s4.1 = false → s4.2.w.recommendationsPerformed = st.w.recommendationsPerformed)) := by
  unfold loadAttempt
  by_cases hl : layoutType = some "carousel"
  · rw [if_pos hl]
    have hth := tryHtml_pres env productId sectionId intent id st
    cases hh : tryHtmlApiFirst env productId sectionId intent id st with
    | error e =>
      dsimp only
      have hew := hth.1 e hh
      refine ⟨?_, ?_⟩
      · intro stE he
        injection he with h2
        rw [← h2, hew]
        exact ⟨rfl, rfl, rfl⟩
      · intro s4 he
        exact Except.noConfusion he
    | ok s1 =>
      dsimp only
      have h1 := hth.2 s1 hh
      by_cases hb : s1.1 = true
      · rw [afterStep1_of_true env productId sectionId intent id s1 hb]
        refine ⟨?_, ?_⟩
        · intro stE he
          exact Except.noConfusion he
        · intro s4 he
          injection he with h2
          rw [← h2]
          refine ⟨h1.1, h1.2.1, ?_⟩
          intro hf
          exact Bool.noConfusion hf
      · have hbf : s1.1 = false := by
          cases hq : s1.1
          · rfl
          · exact absurd hq hb
        have hperf := h1.2.2 hbf
        have has := afterStep1_pres env productId sectionId intent id s1
        refine ⟨?_, ?_⟩
        · intro stE he
          have h3 := has.1 stE he
          exact ⟨h3.1.trans h1.1, h3.2.1.trans h1.2.1, h3.2.2.trans hperf⟩
        · intro s4 he
          have h3 := has.2 s4 he
          exact ⟨h3.1.trans h1.1, h3.2.1.trans h1.2.1, fun hf => (h3.2.2 hf).trans hperf⟩
  · rw [if_neg hl]
    exact afterStep1_pres env productId sectionId intent id (false, st)

theorem bool_false_of_not_true {b : Bool} (h : ¬ b = true) : b = false := by
  cases b
  · rfl
  · exact absurd rfl h

theorem tryHtml_nothrow (env : Env) (productId : String) (sectionId intent : Option String)
    (id : String) (st : St) (hne : ∀ d i2, env.extract d i2 ≠ ExtractRes.throws) :
    ∀ stE, tryHtmlApiFirst env productId sectionId intent id st ≠ Except.error stE := by
  intro stE he
  rcases tryHtml_cases env productId sectionId intent id st with
    ⟨d, hd, hx, h⟩ | h | ⟨d, f, hd, hx, hm, ht, h⟩
  · exact hne d id hx
  · rw [h] at he
    exact Except.noConfusion he
  · rw [h] at he
    exact Except.noConfusion he

theorem htmlFallback_nothrow (env : Env) (productId : String)
    (sectionId intent : Option String) (id : String) (st3 : St)
    (hne : ∀ d i2, env.extract d i2 ≠ ExtractRes.throws) :
    ∀ stE, htmlFallback env productId sectionId intent id st3 ≠ Except.error stE := by
  intro stE he
  rcases htmlFallback_cases env productId sectionId intent id st3 with
    ⟨d, hd, hx, h⟩ | h | ⟨d, f, hd, hx, ht, h⟩
  · exact hne d id hx
  · rw [h] at he
    exact Except.noConfusion he
  · rw [h] at he
    exact Except.noConfusion he

theorem afterJson_nothrow (env : Env) (productId : String)
    (sectionId intent : Option String) (id : String) (s2 : Bool × St)
    (hne : ∀ d i2, env.extract d i2 ≠ ExtractRes.throws) :
    ∀ stE, afterJson env productId sectionId intent id s2 ≠ Except.error stE := by
  intro stE he
  unfold afterJson at he
  by_cases hb : s2.1 = true
  · rw [if_pos hb] at he
    dsimp only at he
    rw [if_pos hb] at he
    exact Except.noConfusion he
  · rw [if_neg hb] at he
    dsimp only at he
    rcases fetchColl_cases env productId s2.2 with hc | ⟨ps, hc⟩
    · rw [hc] at he
      dsimp only at he
      exact htmlFallback_nothrow env productId sectionId intent id _ hne stE he
    · rw [hc] at he
      dsimp only at he
      exact Except.noConfusion he

theorem afterStep1_nothrow (env : Env) (productId : String)
    (sectionId intent : Option String) (id : String) (s1 : Bool × St)
    (hne : ∀ d i2, env.extract d i2 ≠ ExtractRes.throws) :
    ∀ stE, afterStep1 env productId sectionId intent id s1 ≠ Except.error stE := by
  intro stE he
  unfold afterStep1 at he
  exact afterJson_nothrow env productId sectionId intent id _ hne stE he

theorem loadAttempt_nothrow (env : Env) (productId : String)
    (sectionId intent layoutType : Option String) (id : String) (st : St)
    (hne : ∀ d i2, env.extract d i2 ≠ ExtractRes.throws) :
    ∀ stE, loadAttempt env productId sectionId intent layoutType id st ≠ Except.error stE := by
  intro stE he
  unfold loadAttempt at he
  by_cases hl : layoutType = some "carousel"
  · rw [if_pos hl] at he
    cases hh : tryHtmlApiFirst env productId sectionId intent id st with
    | error e =>
      exact tryHtml_nothrow env productId sectionId intent id st hne e hh
    | ok s1 =>
      rw [hh] at he
      dsimp only at he
      exact afterStep1_nothrow env productId sectionId intent id s1 hne stE he
  · rw [if_neg hl] at he
    exact afterStep1_nothrow env productId sectionId intent id (false, st) hne stE he

theorem load_run (env : Env) (st : St) (h1 : truthy st.w.productId = true)
    (h2 : st.w.id ≠ "") (h3 : st.w.recommendationsPerformed ≠ some "true")
    (h4 : st.w.hasListContainer = true) :
    loadRecommendations env st =
      match loadAttempt env (st.w.productId.getD "") st.w.sectionId st.w.intent
          st.w.layoutType st.w.id st with
      | Except.ok s =>
        if s.1 then (true, setPerformed s.2)
        else if env.designMode then (false, s.2) else (false, handleError s.2)
      | Except.error stE =>
        let jr := fetchJsonRecommendations env (st.w.productId.getD "") st.w.intent stE
        if jr.1 then (true, jr.2) else (false, handleError jr.2) := by
  unfold loadRecommendations
  dsimp only
  rw [if_neg (fun h => h.elim (fun hh => hh h1) h2), if_neg h3,
    if_neg (fun hh => hh h4)]

theorem load_flagDone (env : Env) (st : St) (h1 : truthy st.w.productId = true)
    (h2 : st.w.id ≠ "") (h3 : st.w.recommendationsPerformed = some "true") :
    loadRecommendations env st = (false, st) := by
  unfold loadRecommendations
  dsimp only
  rw [if_neg (fun h => h.elim (fun hh => hh h1) h2), if_pos h3]

theorem load_invalid (env : Env) (st : St)
    (h : truthy st.w.productId = false ∨ st.w.id = "") :
    loadRecommendations env st = (false, if env.designMode then st else handleError st) := by
  have hcond : ¬ truthy st.w.productId = true ∨ st.w.id = "" := by
    rcases h with h | h
    · exact Or.inl (by simp [h])
    · exact Or.inr h
  unfold loadRecommendations
  dsimp only
  rw [if_pos hcond]
  by_cases hd : env.designMode = true
  · rw [if_pos hd, if_pos hd]
  · rw [if_neg hd, if_neg hd]

theorem load_noContainer (env : Env) (st : St) (h1 : truthy st.w.productId = true)
    (h2 : st.w.id ≠ "") (h4 : st.w.hasListContainer = false) :
    loadRecommendations env st = (false, st) := by
  unfold loadRecommendations
  dsimp only
  rw [if_neg (fun h => h.elim (fun hh => hh h1) h2)]
  by_cases hf : st.w.recommendationsPerformed = some "true"
  · rw [if_pos hf]
  · rw [if_neg hf, if_pos (by simp [h4])]

theorem load_success_guards (env : Env) (st : St)
    (hs : (loadRecommendations env st).1 = true) :
    truthy st.w.productId = true ∧ st.w.id ≠ "" := by
  by_cases h1 : truthy st.w.productId = true
  · by_cases h2 : st.w.id = ""
    · rw [load_invalid env st (Or.inr h2)] at hs
      exact Bool.noConfusion hs
    · exact ⟨h1, h2⟩
  · rw [load_invalid env st (Or.inl (bool_false_of_not_true h1))] at hs
    exact Bool.noConfusion hs

theorem load_success_flag (env : Env) (st : St)
    (hne : ∀ d i2, env.extract d i2 ≠ ExtractRes.throws)
    (hs : (loadRecommendations env st).1 = true) :
    ((loadRecommendations env st).2).w.recommendationsPerformed = some "true" := by
  obtain ⟨h1, h2⟩ := load_success_guards env st hs
  by_cases h3 : st.w.recommendationsPerformed = some "true"
  · rw [load_flagDone env st h1 h2 h3] at hs
    exact Bool.noConfusion hs
  · by_cases h4 : st.w.hasListContainer = true
    · rw [load_run env st h1 h2 h3 h4] at hs ⊢
      cases hh : loadAttempt env (st.w.productId.getD "") st.w.sectionId st.w.intent
          st.w.layoutType st.w.id st with
      | error stE =>
        exact absurd hh (loadAttempt_nothrow env _ _ _ _ _ st hne stE)
      | ok s =>
        rw [hh] at hs
        dsimp only at hs ⊢
        by_cases hb : s.1 = true
        · rw [if_pos hb]
          simp [setPerformed]
        · rw [if_neg hb] at hs
          by_cases hd : env.designMode = true
          · rw [if_pos hd] at hs
            exact Bool.noConfusion hs
          · rw [if_neg hd] at hs
            exact Bool.noConfusion hs
    · rw [load_noContainer env st h1 h2 (bool_false_of_not_true h4)] at hs
      exact Bool.noConfusion hs

theorem load_fail_flag (env : Env) (st : St)
    (hf : (loadRecommendations env st).1 = false) :
    ((loadRecommendations env st).2).w.recommendationsPerformed
      = st.w.recommendationsPerformed := by
  by_cases h1 : truthy st.w.productId = true
  · by_cases h2 : st.w.id = ""
    · rw [load_invalid env st (Or.inr h2)]
      by_cases hd : env.designMode = true
      · rw [if_pos hd]
      · rw [if_neg hd]
        simp [handleError]
    · by_cases h3 : st.w.recommendationsPerformed = some "true"
      · rw [load_flagDone env st h1 h2 h3]
      · by_cases h4 : st.w.hasListContainer = true
        · rw [load_run env st h1 h2 h3 h4] at hf ⊢
          have hpres := loadAttempt_pres env (st.w.productId.getD "") st.w.sectionId
            st.w.intent st.w.layoutType st.w.id st
          cases hh : loadAttempt env (st.w.productId.getD "") st.w.sectionId st.w.intent
              st.w.layoutType st.w.id st with
          | error stE =>
            rw [hh] at hf
            dsimp only at hf ⊢
            have hE := (hpres.1 stE hh).2.2
            have hjr := (fetchJson_pres env (st.w.productId.getD "") st.w.intent stE).2.2
            by_cases hj : (fetchJsonRecommendations env (st.w.productId.getD "")
                st.w.intent stE).1 = true
            · rw [if_pos hj] at hf
              exact Bool.noConfusion hf
            · rw [if_neg hj]
              simp only [handleError]
              exact hjr.trans hE
          | ok s =>
            rw [hh] at hf
            dsimp only at hf ⊢
            by_cases hb : s.1 = true
            · rw [if_pos hb] at hf
              exact Bool.noConfusion hf
            · rw [if_neg hb]
              have hsp := (hpres.2 s hh).2.2 (bool_false_of_not_true hb)
              by_cases hd : env.designMode = true
              · rw [if_pos hd]
                exact hsp
              · rw [if_neg hd]
                simp only [handleError]
                exact hsp
        · rw [load_noContainer env st h1 h2 (bool_false_of_not_true h4)]
  · rw [load_invalid env st (Or.inl (bool_false_of_not_true h1))]
    by_cases hd : env.designMode = true
    · rw [if_pos hd]
    · rw [if_neg hd]
      simp [handleError]

theorem load_ids (env : Env) (st : St) :
    ((loadRecommendations env st).2).w.productId = st.w.productId ∧
    ((loadRecommendations env st).2).w.id = st.w.id := by
  by_cases h1 : truthy st.w.productId = true
  · by_cases h2 : st.w.id = ""
    · rw [load_invalid env st (Or.inr h2)]
      by_cases hd : env.designMode = true
      · rw [if_pos hd]
        exact ⟨rfl, rfl⟩
      · rw [if_neg hd]
        simp [handleError]
    · by_cases h3 : st.w.recommendationsPerformed = some "true"
      · rw [load_flagDone env st h1 h2 h3]
        exact ⟨rfl, rfl⟩
      · by_cases h4 : st.w.hasListContainer = true
        · rw [load_run env st h1 h2 h3 h4]
          have hpres := loadAttempt_pres env (st.w.productId.getD "") st.w.sectionId
            st.w.intent st.w.layoutType st.w.id st
          cases hh : loadAttempt env (st.w.productId.getD "") st.w.sectionId st.w.intent
              st.w.layoutType st.w.id st with
          | error stE =>
            dsimp only
            have hE := hpres.1 stE hh
            have hjr := fetchJson_pres env (st.w.productId.getD "") st.w.intent stE
            by_cases hj : (fetchJsonRecommendations env (st.w.productId.getD "")
                st.w.intent stE).1 = true
            · rw [if_pos hj]
              exact ⟨hjr.1.trans hE.1, hjr.2.1.trans hE.2.1⟩
            · rw [if_neg hj]
              simp only [handleError]
              exact ⟨hjr.1.trans hE.1, hjr.2.1.trans hE.2.1⟩
          | ok s =>
            dsimp only
            have hO := hpres.2 s hh
            by_cases hb : s.1 = true
            · rw [if_pos hb]
              simp only [setPerformed]
              exact ⟨hO.1, hO.2.1⟩
            · rw [if_neg hb]
              by_cases hd : env.designMode = true
              · rw [if_pos hd]
                exact ⟨hO.1, hO.2.1⟩
              · rw [if_neg hd]
                simp only [handleError]
                exact ⟨hO.1, hO.2.1⟩
        · rw [load_noContainer env st h1 h2 (bool_false_of_not_true h4)]
          exact ⟨rfl, rfl⟩
  · rw [load_invalid env st (Or.inl (bool_false_of_not_true h1))]
    by_cases hd : env.designMode = true
    · rw [if_pos hd]
      exact ⟨rfl, rfl⟩
    · rw [if_neg hd]
      simp [handleError]

/-
  Claim theorems. Each theorem settles one claim of the specification
  against the embedded code.
-/

/-- C3: for every request whose productId or container id is empty or
missing, the orchestrator reaches Failed without performing any network
call, invoking the error handler unless the design-mode signal is active,
in which case the failure is silent. -/
theorem c3_missing_config_fails (env : Env) (st : St)
    (h : truthy st.w.productId = false ∨ st.w.id = "") :
    loadRecommendations env st = (false, if env.designMode then st else handleError st) ∧
    netEvents ((loadRecommendations env st).2).trace = netEvents st.trace ∧
    (env.designMode = false →
      ((loadRecommendations env st).2).trace = st.trace ++ [Ev.errorHandled]) ∧
    (env.designMode = true → (loadRecommendations env st).2 = st) := by
  have h1 := load_invalid env st h
  refine ⟨h1, ?_, ?_, ?_⟩
  · rw [h1]
    by_cases hd : env.designMode = true
    · rw [if_pos hd]
    · rw [if_neg hd]
      simp [handleError, netEvents, Ev.isNet]
  · intro hd
    rw [h1]
    simp [hd, handleError]
  · intro hd
    rw [h1]
    simp [hd]

/-- Witness for C3 at a concrete input: a widget with no product id, outside
design mode, fails with the error handler invoked and no network call. -/
theorem c3_witness :
    loadRecommendations envInert (stOf { wCar with productId := none })
      = (false, handleError (stOf { wCar with productId := none })) := by
  have h := c3_missing_config_fails envInert (stOf { wCar with productId := none })
    (Or.inl rfl)
  simpa using h.1

/-- C10: a widget with a non-empty productId and element id but no list
container returns immediately: no network call, no error handler, the
completion flag unchanged — the run silently does nothing instead of
reaching Failed. -/
theorem c10_no_container_noop (env : Env) (st : St)
    (h1 : truthy st.w.productId = true) (h2 : st.w.id ≠ "")
    (h3 : st.w.hasListContainer = false) :
    loadRecommendations env st = (false, st) :=
  load_noContainer env st h1 h2 h3

/-- Witness for C10 at a concrete input: the valid carousel widget with the
list container removed is left untouched even by a live backend. -/
theorem c10_witness :
    loadRecommendations envCatch (stOf { wCar with hasListContainer := false })
      = (false, stOf { wCar with hasListContainer := false }) :=
  c10_no_container_noop envCatch (stOf { wCar with hasListContainer := false })
    (by decide) (by decide) (by decide)

/-- C1, counterexample: a carousel run in which markup extraction throws and
the last-resort JSON retry succeeds is a successful first run (it renders),
yet it leaves the completion flag unset, and a second invocation with the
unchanged configuration issues a further network call — refuting the claim
that a first-call success never leads to a second set of network calls. -/
theorem c1_counterexample :
    (loadRecommendations envCatch (stOf wCar)).1 = true ∧
    ((loadRecommendations envCatch (stOf wCar)).2).w.recommendationsPerformed
      ≠ some "true" ∧
    netEvents ((loadRecommendations envCatch (stOf wCar)).2).trace
      = [Ev.fetchHtml urlH, Ev.fetchJson urlJ] ∧
    netEvents ((loadRecommendations envCatch
        ((loadRecommendations envCatch (stOf wCar)).2)).2).trace
      = [Ev.fetchHtml urlH, Ev.fetchJson urlJ, Ev.fetchJson urlJ] := by
  decide

/-- C1, amended: with productId and element id present and the completion
flag already set to true, activation is a complete no-op (no network call,
no state change); and after a first successful run that did not go through
the exception path, a second activation is such a no-op. A first success
obtained through the exception-path last-resort retry leaves the flag at
pending, so the idempotence clause holds only for runs without a mid-run
throw. -/
theorem c1_flag_done_noop :
    (∀ env st, truthy st.w.productId = true → st.w.id ≠ "" →
       st.w.recommendationsPerformed = some "true" →
       loadRecommendations env st = (false, st)) ∧
    (∀ env st, (∀ d i2, env.extract d i2 ≠ ExtractRes.throws) →
       (loadRecommendations env st).1 = true →
       loadRecommendations env ((loadRecommendations env st).2)
         = (false, (loadRecommendations env st).2)) := by
  constructor
  · intro env st h1 h2 h3
    exact load_flagDone env st h1 h2 h3
  · intro env st hne hs
    obtain ⟨h1, h2⟩ := load_success_guards env st hs
    have hids := load_ids env st
    apply load_flagDone
    · rw [hids.1]
      exact h1
    · rw [hids.2]
      exact h2
    · exact load_success_flag env st hne hs

/-- Witness for C1 at a concrete input: after the grid widget succeeds via
the JSON endpoint, a second activation changes nothing. -/
theorem c1_witness :
    loadRecommendations envGridJson ((loadRecommendations envGridJson (stOf wGrid)).2)
      = (false, (loadRecommendations envGridJson (stOf wGrid)).2) :=
  c1_flag_done_noop.2 envGridJson (stOf wGrid)
    (fun d i2 h => ExtractRes.noConfusion h) (by decide)

/-- C2, counterexample: with the completion flag already true, a mutation of
the qualifying attribute data-intent re-invokes the orchestrator, but the
orchestrator returns at the completion-flag check: the state is unchanged
and no network call happens, refuting the claim that a qualifying
configuration change overrides CompletionState. -/
theorem c2_counterexample :
    observerFires wDone [⟨true, "attributes", some "data-intent"⟩] = true ∧
    mutationCallback envCatch (stOf wDone) [⟨true, "attributes", some "data-intent"⟩]
      = stOf wDone := by
  decide

/-- C2, amended: every attribute mutation outside the three ignored kinds
re-invokes the orchestrator, but it does not override the completion flag:
when the flag is already true (and productId and id are present) the
re-invocation performs no acquisition and leaves the state unchanged. -/
theorem c2_mutation_reload (env : Env) (st : St) (ms : List MutationRecord)
    (m : MutationRecord) (hm : m ∈ ms) (hq : ignoresMutation st.w m = false) :
    observerFires st.w ms = true ∧
    (st.w.recommendationsPerformed = some "true" → truthy st.w.productId = true →
      st.w.id ≠ "" → mutationCallback env st ms = st) := by
  have hfire : observerFires st.w ms = true := by
    apply List.any_eq_true.mpr
    exact ⟨m, hm, by simp [hq]⟩
  refine ⟨hfire, ?_⟩
  intro h3 h1 h2
  unfold mutationCallback
  rw [if_pos hfire, load_flagDone env st h1 h2 h3]

/-- Witness for C2 at a concrete input. -/
theorem c2_witness :
    observerFires (stOf wDone).w [⟨true, "attributes", some "data-intent"⟩] = true ∧
    ((stOf wDone).w.recommendationsPerformed = some "true" →
      truthy (stOf wDone).w.productId = true → (stOf wDone).w.id ≠ "" →
      mutationCallback envInert (stOf wDone) [⟨true, "attributes", some "data-intent"⟩]
        = stOf wDone) :=
  c2_mutation_reload envInert (stOf wDone)
    [⟨true, "attributes", some "data-intent"⟩]
    ⟨true, "attributes", some "data-intent"⟩ (by decide) (by decide)

/-- C5, counterexample: in a carousel run whose fetched fragment for this
container id is non-empty but lacks the has-products marker, and whose JSON
and collection requests fail, the run ends successfully with the markerless
fragment adopted as the widget content — refuting the claim that such a
fragment is never rendered. -/
theorem c5_counterexample :
    envMarkerless.extract "H" "w1" = ExtractRes.found ⟨"FRAG", false⟩ ∧
    (stOf wCar).w.layoutType = some "carousel" ∧
    (loadRecommendations envMarkerless (stOf wCar)).1 = true ∧
    ((loadRecommendations envMarkerless (stOf wCar)).2).w.innerHTMLv = "FRAG" ∧
    ((loadRecommendations envMarkerless (stOf wCar)).2).w.recommendationsPerformed
      = some "true" := by
  decide

/-- C5, amended: the carousel-only markup strategy succeeds only if the
extracted fragment is non-empty and carries the has-products marker, and a
markerless fragment makes that strategy fail without touching the widget;
the run as a whole, however, may still render the fragment through the
final markup fallback, which performs no marker check. -/
theorem c5_carousel_marker (env : Env) (productId : String)
    (sectionId intent : Option String) (id : String) (st : St) :
    (∀ data frag,
       (fetchCachedRecommendations env productId sectionId intent st).1 = some data →
       env.extract data id = ExtractRes.found frag → frag.hasMarker = false →
       tryHtmlApiFirst env productId sectionId intent id st =
         Except.ok (false, (fetchCachedRecommendations env productId sectionId intent st).2) ∧
       ((fetchCachedRecommendations env productId sectionId intent st).2).w = st.w) ∧
    (∀ s2, tryHtmlApiFirst env productId sectionId intent id st = Except.ok (true, s2) →
       ∃ data frag,
         (fetchCachedRecommendations env productId sectionId intent st).1 = some data ∧
         env.extract data id = ExtractRes.found frag ∧
         jsTrim frag.innerHTML ≠ "" ∧ frag.hasMarker = true ∧
         s2.w.innerHTMLv = frag.innerHTML) := by
  constructor
  · intro data frag hd hx hm
    rcases tryHtml_cases env productId sectionId intent id st with
      ⟨d2, hd2, hx2, h⟩ | h | ⟨d2, f2, hd2, hx2, hm2, ht2, h⟩
    · have hde : d2 = data := Option.some.inj (hd2.symm.trans hd)
      rw [hde, hx] at hx2
      exact absurd hx2 (fun he => ExtractRes.noConfusion he)
    · exact ⟨h, fetchCached_w env productId sectionId intent st⟩
    · have hde : d2 = data := Option.some.inj (hd2.symm.trans hd)
      rw [hde, hx] at hx2
      have hfe : f2 = frag := by
        injection hx2 with h2
        exact h2.symm
      rw [hfe, hm] at hm2
      exact Bool.noConfusion hm2
  · intro s2 he
    rcases tryHtml_cases env productId sectionId intent id st with
      ⟨d2, hd2, hx2, h⟩ | h | ⟨d2, f2, hd2, hx2, hm2, ht2, h⟩
    · rw [h] at he
      exact Except.noConfusion he
    · have h2 := h.symm.trans he
      injection h2 with h3
      exact Bool.noConfusion (congrArg Prod.fst h3)
    · have h2 := h.symm.trans he
      injection h2 with h3
      injection h3 with ha hb
      refine ⟨d2, f2, hd2, hx2, ht2, hm2, ?_⟩
      rw [← hb]
      simp [adoptFragment]

/-- Witness for C5 at a concrete input: the markerless fragment makes the
markup strategy fail with the widget untouched. -/
theorem c5_witness :
    tryHtmlApiFirst envMarkerless "p1" none none "w1" (stOf wCar) =
      Except.ok (false,
        (fetchCachedRecommendations envMarkerless "p1" none none (stOf wCar)).2) ∧
    ((fetchCachedRecommendations envMarkerless "p1" none none (stOf wCar)).2).w
      = (stOf wCar).w :=
  (c5_carousel_marker envMarkerless "p1" none none "w1" (stOf wCar)).1
    "H" ⟨"FRAG", false⟩ (by decide) (by decide) rfl

/-- C6, counterexample: the markup endpoint answers 2xx with an empty body;
the entry is stored but a second acquisition attempt deriving the same
SourceURL treats the stored empty body as a miss and issues a second
network request — refuting the claim that a cache hit short-circuits
network I/O unconditionally. -/
theorem c6_counterexample :
    (fetchCachedRecommendations envEmptyBody "p1" none none (stOf wCar)).1 = some "" ∧
    lookupCache ((fetchCachedRecommendations envEmptyBody "p1" none none
        (stOf wCar)).2).cache urlH = some "" ∧
    ((fetchCachedRecommendations envEmptyBody "p1" none none
        ((fetchCachedRecommendations envEmptyBody "p1" none none (stOf wCar)).2)).2).trace
      = [Ev.fetchHtml urlH, Ev.fetchHtml urlH] := by
  decide

/-- C6, amended: the cache is populated exactly on 2xx responses and
non-empty entries are never invalidated; a hit on a non-empty cached body
short-circuits network I/O, but a cached empty body is treated as a miss
and refetched, so exactly-one-network-call holds only when the first body
is non-empty. -/
theorem c6_cache_discipline :
    (∀ (env : Env) productId sectionId intent (st : St) url rest b,
       urlsToTry st.w productId sectionId intent = url :: rest →
       lookupCache st.cache url = some b → b ≠ "" →
       fetchCachedRecommendations env productId sectionId intent st = (some b, st)) ∧
    (∀ (env : Env) urls (st : St) u b, lookupCache st.cache u = some b → b ≠ "" →
       lookupCache ((fetchLoop env urls st).2).cache u = some b) ∧
    (∀ (env : Env) urls (st : St) u b,
       lookupCache ((fetchLoop env urls st).2).cache u = some b →
       lookupCache st.cache u = some b ∨ env.fetchRes u = FetchOutcome.ok b) := by
  refine ⟨?_, ?_, ?_⟩
  · intro env productId sectionId intent st url rest b hurls hlook hb
    unfold fetchCachedRecommendations
    rw [hurls]
    unfold fetchLoop
    rw [hlook]
    simp only [Option.getD_some]
    rw [if_pos hb]
  · intro env urls
    induction urls with
    | nil =>
      intro st u b hl hb
      exact hl
    | cons url rest ih =>
      intro st u b hl hb
      unfold fetchLoop
      by_cases hc : (lookupCache st.cache url).getD "" ≠ ""
      · rw [if_pos hc]
        exact hl
      · rw [if_neg hc]
        cases hfr : env.fetchRes url with
        | ok body =>
          by_cases hu : u = url
          · exfalso
            have hce : (lookupCache st.cache url).getD "" = "" := not_ne_iff.mp hc
            rw [hu] at hl
            rw [hl] at hce
            exact hb hce
          · dsimp only
            rw [lookupCache_insert_ne _ _ _ _ hu]
            exact hl
        | httpErr =>
          dsimp only
          exact ih _ u b hl hb
        | netErr =>
          dsimp only
          exact ih _ u b hl hb
  · intro env urls
    induction urls with
    | nil =>
      intro st u b hl
      exact Or.inl hl
    | cons url rest ih =>
      intro st u b hl
      unfold fetchLoop at hl
      by_cases hc : (lookupCache st.cache url).getD "" ≠ ""
      · rw [if_pos hc] at hl
        exact Or.inl hl
      · rw [if_neg hc] at hl
        cases hfr : env.fetchRes url with
        | ok body =>
          rw [hfr] at hl
          dsimp only at hl
          by_cases hu : u = url
          · rw [hu] at hl ⊢
            rw [lookupCache_insert_self] at hl
            right
            rw [hfr]
            exact congrArg FetchOutcome.ok (Option.some.inj hl)
          · rw [lookupCache_insert_ne _ _ _ _ hu] at hl
            exact Or.inl hl
        | httpErr =>
          rw [hfr] at hl
          dsimp only at hl
          exact ih { st with trace := st.trace ++ [Ev.fetchHtml url] } u b hl
        | netErr =>
          rw [hfr] at hl
          dsimp only at hl
          exact ih { st with trace := st.trace ++ [Ev.fetchHtml url] } u b hl

/-- Witness for C6 at a concrete input: a non-empty cached body for the
derived SourceURL is consumed with no network call. -/
theorem c6_witness :
    fetchCachedRecommendations envInert "p1" none none
        { w := wCar, cache := [(urlH, "H")], trace := [] }
      = (some "H", { w := wCar, cache := [(urlH, "H")], trace := [] }) :=
  c6_cache_discipline.1 envInert "p1" none none
    { w := wCar, cache := [(urlH, "H")], trace := [] } urlH [] "H"
    (by decide) (by decide) (by decide)

/-- C8, counterexample: with the design-mode signal active, a carousel run
whose markup extraction throws and whose last-resort JSON attempt fails
still invokes the error handler — refuting the claim that Failed on this
path suppresses the handler in authoring/preview mode. -/
theorem c8_counterexample :
    envDesignThrow.designMode = true ∧
    ((loadRecommendations envDesignThrow (stOf wCar)).2).trace
      = [Ev.fetchHtml urlH, Ev.fetchJson urlJ, Ev.errorHandled] := by
  decide

/-- C8, amended: when an error is thrown mid-run, the orchestrator makes
exactly one last-resort JSON attempt; if it fails the run ends Failed with
the error handler invoked unconditionally — even when the design-mode
signal is active — and the completion flag is left unchanged in every
case. -/
theorem c8_last_resort (env : Env) (st : St) (stE : St)
    (h1 : truthy st.w.productId = true) (h2 : st.w.id ≠ "")
    (h3 : st.w.recommendationsPerformed ≠ some "true")
    (h4 : st.w.hasListContainer = true)
    (hE : loadAttempt env (st.w.productId.getD "") st.w.sectionId st.w.intent
        st.w.layoutType st.w.id st = Except.error stE) :
    netEvents ((loadRecommendations env st).2).trace
      = netEvents stE.trace
        ++ [Ev.fetchJson (jsonUrl env stE.w (st.w.productId.getD "") st.w.intent)] ∧
    ((fetchJsonRecommendations env (st.w.productId.getD "") st.w.intent stE).1 = false →
      (loadRecommendations env st).1 = false ∧
      Ev.errorHandled ∈ ((loadRecommendations env st).2).trace) ∧
    ((fetchJsonRecommendations env (st.w.productId.getD "") st.w.intent stE).1 = true →
      (loadRecommendations env st).1 = true) ∧
    ((loadRecommendations env st).2).w.recommendationsPerformed
      = st.w.recommendationsPerformed := by
  have hrun := load_run env st h1 h2 h3 h4
  have hEperf := ((loadAttempt_pres env (st.w.productId.getD "") st.w.sectionId
    st.w.intent st.w.layoutType st.w.id st).1 stE hE).2.2
  rw [hrun, hE]
  dsimp only
  rcases fetchJson_cases env (st.w.productId.getD "") st.w.intent stE with hJ | ⟨ps, hps, hJ⟩
  · rw [hJ]
    dsimp only
    refine ⟨?_, ?_, ?_, ?_⟩
    · simp [handleError, netEvents, Ev.isNet, List.filter_append]
    · intro hjf
      simp [handleError]
    · intro hjt
      exact Bool.noConfusion hjt
    · simp only [handleError]
      exact hEperf
  · rw [hJ]
    dsimp only
    refine ⟨?_, ?_, ?_, ?_⟩
    · simp [renderProductCards, netEvents, Ev.isNet, List.filter_append]
    · intro hjf
      exact Bool.noConfusion hjf
    · intro hjt
      rfl
    · simp only [renderProductCards]
      exact hEperf

/-- Witness for C8 at a concrete input. -/
theorem c8_witness :
    ((loadRecommendations envDesignThrow (stOf wCar)).1 = false ∧
      Ev.errorHandled ∈ ((loadRecommendations envDesignThrow (stOf wCar)).2).trace) ∧
    ((loadRecommendations envDesignThrow (stOf wCar)).2).w.recommendationsPerformed
      = (stOf wCar).w.recommendationsPerformed := by
  have h := c8_last_resort envDesignThrow (stOf wCar)
    { w := wCar, cache := [(urlH, "H")], trace := [Ev.fetchHtml urlH] }
    (by decide) (by decide) (by decide) (by decide) (by rfl)
  exact ⟨h.2.1 (by decide), h.2.2.2⟩

/-- C9, counterexample: a run that succeeds through the last-resort JSON
retry of the catch path ends with a rendered list but leaves the completion
flag unset — refuting the claim that every Succeeded run sets the flag. -/
theorem c9_counterexample :
    (loadRecommendations envCatch (stOf wCar)).1 = true ∧
    Ev.render [⟨"x"⟩] "carousel" ∈ ((loadRecommendations envCatch (stOf wCar)).2).trace ∧
    ((loadRecommendations envCatch (stOf wCar)).2).w.recommendationsPerformed
      ≠ some "true" := by
  decide

/-- C9, amended: every run that ends Succeeded without a mid-run exception
sets the completion flag to true before finishing, and a run that ends
Failed never changes the flag; a success obtained through the
exception-path last-resort JSON retry leaves the flag at pending. -/
theorem c9_success_sets_flag :
    (∀ (env : Env) (st : St), (∀ d i2, env.extract d i2 ≠ ExtractRes.throws) →
       (loadRecommendations env st).1 = true →
       ((loadRecommendations env st).2).w.recommendationsPerformed = some "true") ∧
    (∀ (env : Env) (st : St), (loadRecommendations env st).1 = false →
       ((loadRecommendations env st).2).w.recommendationsPerformed
         = st.w.recommendationsPerformed) :=
  ⟨load_success_flag, load_fail_flag⟩

/-- Witness for C9 at a concrete input: the grid widget succeeding via the
JSON endpoint carries the flag. -/
theorem c9_witness :
    ((loadRecommendations envGridJson (stOf wGrid)).2).w.recommendationsPerformed
      = some "true" :=
  c9_success_sets_flag.1 envGridJson (stOf wGrid)
    (fun d i2 h => ExtractRes.noConfusion h) (by decide)

/-- C7, counterexample: three overlapping calls. Call 1 starts and call 2
supersedes it (aborting fetch 1 and installing controller 2); fetch 1 then
rejects and its `finally` clears the shared handle — erasing the handle of
call 2; call 3 therefore aborts nothing. Afterwards fetches 2 and 3 are both
in flight, the handle names only 3, and 2 was never aborted — refuting the
single-flight claim and the claim that a new fetch first aborts any
outstanding one, and exhibiting the `finally`-path corruption. -/
theorem c7_counterexample :
    inFlight (coordRun [CoordEv.startFetch 1 "u1", CoordEv.startFetch 2 "u2",
      CoordEv.deliverErr 1, CoordEv.startFetch 3 "u3"]) = [3, 2] ∧
    (coordRun [CoordEv.startFetch 1 "u1", CoordEv.startFetch 2 "u2",
      CoordEv.deliverErr 1, CoordEv.startFetch 3 "u3"]).handle = some 3 ∧
    2 ∉ (coordRun [CoordEv.startFetch 1 "u1", CoordEv.startFetch 2 "u2",
      CoordEv.deliverErr 1, CoordEv.startFetch 3 "u3"]).abortedL := by
  decide

/-- C7, amended: issuing a new fragment fetch aborts exactly the fetch
recorded in the coordinator handle; a request that was aborted never
populates the cache when its result arrives; and the completion of any call
— cancelled or not — resets the shared handle to none unconditionally,
which is what can erase a superseding call's handle (so at most one request
in flight is not guaranteed across three overlapping calls). -/
theorem c7_single_flight (s : CoordState) (i j : Nat) (u b : String) :
    (s.handle = some j → i ∉ idsStarted s →
      j ∈ (coordStep s (CoordEv.startFetch i u)).abortedL) ∧
    (i ∈ s.abortedL → (coordStep s (CoordEv.deliverOk i b)).ccache = s.ccache) ∧
    (i ∈ idsStarted s → i ∉ s.finishedL →
      (coordStep s (CoordEv.deliverErr i)).handle = none ∧
      (coordStep s (CoordEv.deliverOk i b)).handle = none) := by
  refine ⟨?_, ?_, ?_⟩
  · intro hh hns
    unfold coordStep
    dsimp only
    rw [if_neg hns, hh]
    exact List.mem_cons_self j s.abortedL
  · intro hab
    unfold coordStep
    dsimp only
    by_cases hc : i ∈ idsStarted s ∧ i ∉ s.finishedL
    · rw [if_pos hc, if_pos hab]
    · rw [if_neg hc]
  · intro hs hnf
    constructor
    · unfold coordStep
      dsimp only
      rw [if_pos ⟨hs, hnf⟩]
    · unfold coordStep
      dsimp only
      rw [if_pos ⟨hs, hnf⟩]
      by_cases hab : i ∈ s.abortedL
      · rw [if_pos hab]
      · rw [if_neg hab]

/-- Witness for C7 at a concrete input: a start while the handle holds
controller 5 aborts fetch 5, and a delivery for an aborted fetch leaves the
cache unchanged. -/
theorem c7_witness :
    5 ∈ (coordStep ⟨some 5, [(5, "u5")], [], [], []⟩
      (CoordEv.startFetch 6 "u6")).abortedL ∧
    (coordStep ⟨some 6, [(6, "u6"), (5, "u5")], [5], [], []⟩
      (CoordEv.deliverOk 5 "B")).ccache
      = (⟨some 6, [(6, "u6"), (5, "u5")], [5], [], []⟩ : CoordState).ccache :=
  ⟨(c7_single_flight ⟨some 5, [(5, "u5")], [], [], []⟩ 6 5 "u6" "B").1 rfl (by decide),
   (c7_single_flight ⟨some 6, [(6, "u6"), (5, "u5")], [5], [], []⟩ 5 5 "u6" "B").2.1
     (by decide)⟩

theorem afterJson_of_true (env : Env) (productId : String)
    (sectionId intent : Option String) (id : String) (s2 : Bool × St)
    (hb : s2.1 = true) :
    afterJson env productId sectionId intent id s2 = Except.ok (true, s2.2) := by
  unfold afterJson
  rw [if_pos hb]
  dsimp only
  rw [if_pos hb]

theorem afterJson_trace_ext (env : Env) (productId : String)
    (sectionId intent : Option String) (id : String) (s2 : Bool × St) :
    (∀ stE, afterJson env productId sectionId intent id s2 = Except.error stE →
       ∃ t, stE.trace = s2.2.trace ++ t) ∧
    (∀ s4, afterJson env productId sectionId intent id s2 = Except.ok s4 →
       ∃ t, s4.2.trace = s2.2.trace ++ t) := by
  by_cases hb : s2.1 = true
  · rw [afterJson_of_true env productId sectionId intent id s2 hb]
    refine ⟨?_, ?_⟩
    · intro stE he
      exact Except.noConfusion he
    · intro s4 he
      injection he with h2
      rw [← h2]
      exact ⟨[], by simp⟩
  · unfold afterJson
    rw [if_neg hb]
    dsimp only
    rcases fetchColl_cases env productId s2.2 with hc | ⟨ps, hc⟩
    · rw [hc]
      dsimp only
      obtain ⟨tH, htH, _⟩ := fetchCached_trace env productId sectionId intent
        { s2.2 with trace := s2.2.trace ++ [Ev.fetchColl (collectionUrl env s2.2.w)] }
      rcases htmlFallback_cases env productId sectionId intent id
          { s2.2 with trace := s2.2.trace ++ [Ev.fetchColl (collectionUrl env s2.2.w)] } with
        ⟨d, hd, hx, hF⟩ | hF | ⟨d, f, hd, hx, ht, hF⟩
      · rw [hF]
        refine ⟨?_, ?_⟩
        · intro stE he
          injection he with h2
          rw [← h2]
          refine ⟨Ev.fetchColl (collectionUrl env s2.2.w) :: tH, ?_⟩
          rw [htH]
          simp
        · intro s4 he
          exact Except.noConfusion he
      · rw [hF]
        refine ⟨?_, ?_⟩
        · intro stE he
          exact Except.noConfusion he
        · intro s4 he
          injection he with h2
          rw [← h2]
          refine ⟨Ev.fetchColl (collectionUrl env s2.2.w) :: tH, ?_⟩
          rw [htH]
          simp
      · rw [hF]
        refine ⟨?_, ?_⟩
        · intro stE he
          exact Except.noConfusion he
        · intro s4 he
          injection he with h2
          rw [← h2]
          refine ⟨Ev.fetchColl (collectionUrl env s2.2.w) :: tH, ?_⟩
          simp only [adoptFragment]
          rw [htH]
          simp
    · rw [hc]
      dsimp only
      refine ⟨?_, ?_⟩
      · intro stE he
        exact Except.noConfusion he
      · intro s4 he
        injection he with h2
        rw [← h2]
        refine ⟨[Ev.fetchColl (collectionUrl env s2.2.w),
          Ev.render ps (match s2.2.w.layoutType with | none => "grid" | some l => l)], ?_⟩
        simp [renderProductCards]

theorem loadAttempt_grid (env : Env) (st : St) (h5 : st.w.layoutType ≠ some "carousel") :
    loadAttempt env (st.w.productId.getD "") st.w.sectionId st.w.intent
        st.w.layoutType st.w.id st
      = afterJson env (st.w.productId.getD "") st.w.sectionId st.w.intent st.w.id
          (fetchJsonRecommendations env (st.w.productId.getD "") st.w.intent st) := by
  unfold loadAttempt afterStep1
  rw [if_neg h5]
  dsimp only
  rw [if_neg (fun hcon => Bool.noConfusion hcon)]

theorem grid_trace_ext (env : Env) (st : St) (h1 : truthy st.w.productId = true)
    (h2 : st.w.id ≠ "") (h3 : st.w.recommendationsPerformed ≠ some "true")
    (h4 : st.w.hasListContainer = true) (h5 : st.w.layoutType ≠ some "carousel") :
    ∃ t, ((loadRecommendations env st).2).trace
      = ((fetchJsonRecommendations env (st.w.productId.getD "") st.w.intent st).2).trace
        ++ t := by
  rw [load_run env st h1 h2 h3 h4, loadAttempt_grid env st h5]
  have haj := afterJson_trace_ext env (st.w.productId.getD "") st.w.sectionId
    st.w.intent st.w.id (fetchJsonRecommendations env (st.w.productId.getD "") st.w.intent st)
  cases hh : afterJson env (st.w.productId.getD "") st.w.sectionId st.w.intent st.w.id
      (fetchJsonRecommendations env (st.w.productId.getD "") st.w.intent st) with
  | error stE =>
    obtain ⟨t1, ht1⟩ := haj.1 stE hh
    dsimp only
    rcases fetchJson_cases env (st.w.productId.getD "") st.w.intent stE with hJ2 | ⟨ps, hps, hJ2⟩
    · rw [hJ2]
      dsimp only
      rw [if_neg (fun hcon => Bool.noConfusion hcon)]
      refine ⟨t1 ++ [Ev.fetchJson (jsonUrl env stE.w (st.w.productId.getD "") st.w.intent),
        Ev.errorHandled], ?_⟩
      simp [handleError, ht1]
    · rw [hJ2]
      dsimp only
      rw [if_pos rfl]
      refine ⟨t1 ++ [Ev.fetchJson (jsonUrl env stE.w (st.w.productId.getD "") st.w.intent),
        Ev.render ps (match stE.w.layoutType with | none => "grid" | some l => l)], ?_⟩
      simp [renderProductCards, ht1]
  | ok s4 =>
    obtain ⟨t1, ht1⟩ := haj.2 s4 hh
    dsimp only
    by_cases hb : s4.1 = true
    · rw [if_pos hb]
      exact ⟨t1, by simpa [setPerformed] using ht1⟩
    · rw [if_neg hb]
      by_cases hd : env.designMode = true
      · rw [if_pos hd]
        exact ⟨t1, ht1⟩
      · rw [if_neg hd]
        exact ⟨t1 ++ [Ev.errorHandled], by simp [handleError, ht1]⟩

theorem afterJson_coll_true (env : Env) (productId : String)
    (sectionId intent : Option String) (id : String) (s2 : Bool × St)
    (hb : s2.1 = false) (s4 : St)
    (hC : fetchFromCollection env productId s2.2 = (true, s4)) :
    afterJson env productId sectionId intent id s2 = Except.ok (true, s4) := by
  unfold afterJson
  rw [if_neg (show ¬ s2.1 = true by simp [hb]), hC]
  dsimp only
  rw [if_pos rfl]

/-- C4: in grid layout the JSON strategy is always attempted; a JSON success
ends the run at once with the rendered products and the completion flag; the
collection strategy runs and can end the run only after a JSON failure; and
any markup-endpoint call happens only after both the JSON and the collection
strategies failed. -/
theorem c4_grid_fallback_order (env : Env) (st : St)
    (h1 : truthy st.w.productId = true) (h2 : st.w.id ≠ "")
    (h3 : st.w.recommendationsPerformed ≠ some "true")
    (h4 : st.w.hasListContainer = true)
    (h5 : st.w.layoutType ≠ some "carousel")
    (h6 : st.trace = []) :
    Ev.fetchJson (jsonUrl env st.w (st.w.productId.getD "") st.w.intent)
      ∈ ((loadRecommendations env st).2).trace ∧
    ((fetchJsonRecommendations env (st.w.productId.getD "") st.w.intent st).1 = true →
      loadRecommendations env st =
        (true, setPerformed
          (fetchJsonRecommendations env (st.w.productId.getD "") st.w.intent st).2)) ∧
    ((fetchJsonRecommendations env (st.w.productId.getD "") st.w.intent st).1 = false →
      (fetchFromCollection env (st.w.productId.getD "")
          (fetchJsonRecommendations env (st.w.productId.getD "") st.w.intent st).2).1
        = true →
      loadRecommendations env st =
        (true, setPerformed (fetchFromCollection env (st.w.productId.getD "")
          (fetchJsonRecommendations env (st.w.productId.getD "") st.w.intent st).2).2)) ∧
    (∀ u, Ev.fetchColl u ∈ ((loadRecommendations env st).2).trace →
      (fetchJsonRecommendations env (st.w.productId.getD "") st.w.intent st).1 = false) ∧
    (∀ u, Ev.fetchHtml u ∈ ((loadRecommendations env st).2).trace →
      (fetchJsonRecommendations env (st.w.productId.getD "") st.w.intent st).1 = false ∧
      (fetchFromCollection env (st.w.productId.getD "")
        (fetchJsonRecommendations env (st.w.productId.getD "") st.w.intent st).2).1
        = false) := by
  obtain ⟨tE, htE⟩ := grid_trace_ext env st h1 h2 h3 h4 h5
  have hi : Ev.fetchJson (jsonUrl env st.w (st.w.productId.getD "") st.w.intent)
      ∈ ((loadRecommendations env st).2).trace := by
    rw [htE]
    rcases fetchJson_cases env (st.w.productId.getD "") st.w.intent st with
      hJ | ⟨ps, hps, hJ⟩ <;> rw [hJ] <;> simp [renderProductCards]
  rcases fetchJson_cases env (st.w.productId.getD "") st.w.intent st with
    hJ | ⟨ps, hps, hJ⟩
  · have hjf0 : (fetchJsonRecommendations env (st.w.productId.getD "") st.w.intent st).1
        = false := by rw [hJ]
    rcases fetchColl_cases env (st.w.productId.getD "")
        { st with trace := st.trace
          ++ [Ev.fetchJson (jsonUrl env st.w (st.w.productId.getD "") st.w.intent)] } with
      hC | ⟨ps2, hC⟩
    · have hcf0 : (fetchFromCollection env (st.w.productId.getD "")
          (fetchJsonRecommendations env (st.w.productId.getD "") st.w.intent st).2).1
          = false := by
        rw [hJ]
        rw [hC]
      refine ⟨hi, ?_, ?_, fun u _ => hjf0, fun u _ => ⟨hjf0, hcf0⟩⟩
      · intro hjt
        rw [hjf0] at hjt
        exact Bool.noConfusion hjt
      · intro _ hct
        rw [hcf0] at hct
        exact Bool.noConfusion hct
    · have hC2 : fetchFromCollection env (st.w.productId.getD "")
          (fetchJsonRecommendations env (st.w.productId.getD "") st.w.intent st).2
          = fetchFromCollection env (st.w.productId.getD "")
              { st with trace := st.trace
                ++ [Ev.fetchJson (jsonUrl env st.w (st.w.productId.getD "") st.w.intent)] } := by
        rw [hJ]
      have hCt := hC2.trans hC
      have hAJ := afterJson_coll_true env (st.w.productId.getD "") st.w.sectionId
        st.w.intent st.w.id
        (fetchJsonRecommendations env (st.w.productId.getD "") st.w.intent st) hjf0 _ hCt
      have hout : loadRecommendations env st
          = (true, setPerformed (fetchFromCollection env (st.w.productId.getD "")
              (fetchJsonRecommendations env (st.w.productId.getD "") st.w.intent st).2).2) := by
        rw [load_run env st h1 h2 h3 h4, loadAttempt_grid env st h5, hAJ, hCt]
        dsimp only
        rw [if_pos rfl]
      refine ⟨hi, ?_, fun _ _ => hout, fun u _ => hjf0, ?_⟩
      · intro hjt
        rw [hjf0] at hjt
        exact Bool.noConfusion hjt
      · intro u hu
        rw [hout] at hu
        simp only [hCt] at hu
        simp [setPerformed, renderProductCards, h6] at hu
  · have hout : loadRecommendations env st
        = (true, setPerformed
            (fetchJsonRecommendations env (st.w.productId.getD "") st.w.intent st).2) := by
      rw [load_run env st h1 h2 h3 h4, loadAttempt_grid env st h5,
        afterJson_of_true env (st.w.productId.getD "") st.w.sectionId st.w.intent st.w.id
          _ (by rw [hJ])]
      dsimp only
      rw [if_pos rfl]
    refine ⟨hi, fun _ => hout, ?_, ?_, ?_⟩
    · intro hjf _
      rw [hJ] at hjf
      exact Bool.noConfusion hjf
    · intro u hu
      rw [hout] at hu
      simp only [hJ] at hu
      simp [setPerformed, renderProductCards, h6] at hu
    · intro u hu
      rw [hout] at hu
      simp only [hJ] at hu
      simp [setPerformed, renderProductCards, h6] at hu

/-- Witness for C4 at a concrete input: the grid widget whose JSON endpoint
returns a product renders through the JSON strategy alone. -/
theorem c4_witness :
    loadRecommendations envGridJson (stOf wGrid)
      = (true, setPerformed
          (fetchJsonRecommendations envGridJson "p1" none (stOf wGrid)).2) := by
  have h := c4_grid_fallback_order envGridJson (stOf wGrid) (by decide) (by decide)
    (by decide) (by decide) (by decide) rfl
  exact h.2.1 (by decide)

end ProductRecs
